import Mathlib

/-!
# Verification of the ifsbench launcher / serialisation core

This file gives a shallow embedding in Lean 4 of the launcher-composition,
bash-script generation, mpirun job translation and serialisation-mixin core
of the ifsbench repository, and proves the specified properties about it.

Embedding conventions:
* Python `pathlib.Path` values are modelled as plain strings; the `/` join
  operator becomes string concatenation with a `"/"` separator.
* Python dictionaries (environment mappings, configuration mappings) are
  modelled as ordered association lists with unique keys, mirroring the
  insertion-order semantics of `dict`.
* Fallible Python code (code that can raise, e.g. indexing `cmd[0]` on an
  empty list) is modelled with `Option`.
* Side effects other than the value returned (log messages, the written
  script file) are either dropped (logging) or modelled as an explicitly
  returned value (the script text, `writeBashFile`).
-/

namespace Ifsbench

/-- Structure `LaunchData` from `ifsbench/launch/launcher.py`: working directory,
command line (argv) and environment mapping for a launch. -/
structure LaunchData where
  run_dir : String
  cmd : List String
  env : List (String × String)
deriving DecidableEq, Repr, Inhabited

/-! ## Python string helpers

The bash launcher and the mpirun launcher manipulate strings via
`str.replace`, `str.split` and `str.format`.  We embed these operations on
`List Char` (for the single-character patterns that actually occur in the
source) so that everything reduces by computation. -/

/-- Python `value.replace(old, new)` specialised to a single-character
pattern `old`: every occurrence of `old` is replaced by `new`, scanning
left to right. -/
def pyReplaceChar (old : Char) (new : List Char) : List Char → List Char
  | [] => []
  | c :: cs =>
    if c = old then new ++ pyReplaceChar old new cs
    else c :: pyReplaceChar old new cs

/-- Python `template.format(value)` for a template containing one `{}`
placeholder: the first `{}` is replaced by the decimal rendering of
`value`. -/
def pyFormat (value : Nat) : List Char → List Char
  | '{' :: '}' :: rest => (toString value).data ++ rest
  | c :: rest => c :: pyFormat value rest
  | [] => []

/-- Python `s.split(sep)` for a single-character separator: split on every
occurrence (empty fields between consecutive separators are kept). -/
def pySplitChar (sep : Char) : List Char → List (List Char)
  | [] => [[]]
  | c :: rest =>
    if c = sep then [] :: pySplitChar sep rest
    else
      match pySplitChar sep rest with
      | [] => [[c]]
      | g :: gs => (c :: g) :: gs

/-- Python `cmd0.split('/')[-1]`: the basename used by `BashLauncher.wrap`
for the generated script file name (`cmd_str` in the source). -/
def cmdBasename (c : String) : String :=
  String.mk ((pySplitChar '/' c.data).getLastD [])

/-! ## Environment pipeline

Modelled from the spec: `ifsbench/env.py` (`EnvOperation`, `EnvHandler`,
`EnvPipeline`, `DefaultEnvPipeline`) is not present under `src/`; only its
callers (the launchers) and the spec describe it.  Following spec §4.1:
an `EnvPipeline` owns an ordered handler list and a base environment
snapshot; `execute()` folds the handlers over a copy of the snapshot.
`DefaultEnvPipeline()` (constructed with no arguments) has an empty handler
list and an empty base snapshot. -/

/-- Modelled from the spec: the environment-mutation modes of `EnvHandler`
(`ifsbench/env.py`, missing from `src/`). -/
inductive EnvOperation where
  | SET
  | APPEND
  | PREPEND
  | DELETE
  | CLEAR
deriving DecidableEq, Repr

/-- Modelled from the spec: one atomic environment mutation
(`EnvHandler` in `ifsbench/env.py`, missing from `src/`). -/
structure EnvHandler where
  mode : EnvOperation
  key : Option String := none
  value : Option String := none
deriving DecidableEq, Repr

/-- Ordered-dictionary lookup on an association list. -/
def envLookup (env : List (String × String)) (k : String) : Option String :=
  match env with
  | [] => none
  | (k', v') :: rest => if k' = k then some v' else envLookup rest k

/-- Ordered-dictionary assignment: overwrite in place if the key exists,
append otherwise (Python `dict` semantics). -/
def envSet (env : List (String × String)) (k v : String) :
    List (String × String) :=
  match env with
  | [] => [(k, v)]
  | (k', v') :: rest =>
    if k' = k then (k, v) :: rest else (k', v') :: envSet rest k v

/-- Ordered-dictionary deletion (no error if the key is absent). -/
def envDelete (env : List (String × String)) (k : String) :
    List (String × String) :=
  match env with
  | [] => []
  | (k', v') :: rest =>
    if k' = k then rest else (k', v') :: envDelete rest k

/-- Modelled from the spec: application of one `EnvHandler` to a working
environment (spec §4.1).  `APPEND`/`PREPEND` join with the path separator
`":"` when the key already holds a non-empty value. -/
def applyHandler (env : List (String × String)) (h : EnvHandler) :
    List (String × String) :=
  let k := h.key.getD ""
  let v := h.value.getD ""
  match h.mode with
  | EnvOperation.SET => envSet env k v
  | EnvOperation.APPEND =>
    match envLookup env k with
    | some old => if old ≠ "" then envSet env k (old ++ ":" ++ v) else envSet env k v
    | none => envSet env k v
  | EnvOperation.PREPEND =>
    match envLookup env k with
    | some old => if old ≠ "" then envSet env k (v ++ ":" ++ old) else envSet env k v
    | none => envSet env k v
  | EnvOperation.DELETE => envDelete env k
  | EnvOperation.CLEAR => []

/-- Modelled from the spec: `EnvPipeline` (`ifsbench/env.py`, missing from
`src/`): an ordered handler log plus a base environment snapshot. -/
structure EnvPipeline where
  handlers : List EnvHandler := []
  env_initial : List (String × String) := []
deriving DecidableEq, Repr

/-- Modelled from the spec: `EnvPipeline.add` appends a handler to the log. -/
def EnvPipeline.add (p : EnvPipeline) (h : EnvHandler) : EnvPipeline :=
  { p with handlers := p.handlers ++ [h] }

/-- Modelled from the spec: `EnvPipeline.execute` folds the handler log over
a copy of the base snapshot (spec §4.1). -/
def EnvPipeline.execute (p : EnvPipeline) : List (String × String) :=
  p.handlers.foldl applyHandler p.env_initial

/-- Modelled from the spec: `DefaultEnvPipeline()` constructed with no
arguments: empty handler log, empty base snapshot. -/
def DefaultEnvPipeline : EnvPipeline := {}

/-! ## Job

Modelled from the spec: `ifsbench/job.py` is not present under `src/`.
Spec §3 lists the fields; the enum member names follow the users in
`mpirunlauncher.py` (`CpuBinding.BIND_*`, `CpuDistribution.DISTRIBUTE_*`). -/

/-- Modelled from the spec: CPU binding strategies (`CpuBinding` in
`ifsbench/job.py`, missing from `src/`). -/
inductive CpuBinding where
  | BIND_NONE
  | BIND_SOCKETS
  | BIND_CORES
  | BIND_THREADS
  | BIND_USER
deriving DecidableEq, Repr

/-- Modelled from the spec: CPU distribution strategies (`CpuDistribution`
in `ifsbench/job.py`, missing from `src/`). -/
inductive CpuDistribution where
  | DISTRIBUTE_DEFAULT
  | DISTRIBUTE_BLOCK
  | DISTRIBUTE_CYCLIC
  | DISTRIBUTE_USER
deriving DecidableEq, Repr

/-- Modelled from the spec: the `Job` resource description
(`ifsbench/job.py`, missing from `src/`).  All fields optional; `none`
means "let the launcher/scheduler decide" (spec §3). -/
structure Job where
  tasks : Option Nat := none
  tasks_per_node : Option Nat := none
  tasks_per_socket : Option Nat := none
  nodes : Option Nat := none
  cpus_per_task : Option Nat := none
  gpus_per_task : Option Nat := none
  bind : Option CpuBinding := none
  distribute_local : Option CpuDistribution := none
  distribute_remote : Option CpuDistribution := none
deriving DecidableEq, Repr

/-- Python truthiness of an optional list (`if custom_flags:` patterns in
the launch code): `None` and `[]` are falsy. -/
def optListTruthy (o : Option (List String)) : Bool :=
  match o with
  | some (_ :: _) => true
  | _ => false

/-- The flags contributed by a truthy optional list (`flags += custom_flags`
guarded by `if custom_flags:`). -/
def optListFlags (o : Option (List String)) : List String :=
  if optListTruthy o then o.getD [] else []

/-- The library-path handlers added by `DirectLauncher.prepare` and
`MpirunLauncher.prepare` (`if library_paths: for path in library_paths:
env_pipeline.add(EnvHandler(mode=APPEND, key='LD_LIBRARY_PATH', value=path))`). -/
def addLibraryPaths (p : EnvPipeline) (library_paths : Option (List String)) :
    EnvPipeline :=
  match library_paths with
  | some paths =>
    paths.foldl
      (fun acc path =>
        acc.add ⟨EnvOperation.APPEND, some "LD_LIBRARY_PATH", some path⟩)
      p
  | none => p

/-! ## DirectLauncher (`ifsbench/launch/directlauncher.py`) -/

/-- Function `DirectLauncher.prepare`: resolve the environment pipeline (default if
none given), register library paths, and build
`[executable?] + flags + custom_flags + cmd`.  `self.executable` is tested
for Python truthiness, so an empty string contributes nothing. -/
def directPrepare (selfFlags : List String) (executable : Option String)
    (run_dir : String) (_job : Job) (cmd : List String)
    (library_paths : Option (List String)) (env_pipeline : Option EnvPipeline)
    (custom_flags : Option (List String)) : LaunchData :=
  let pipeline := env_pipeline.getD DefaultEnvPipeline
  let pipeline := addLibraryPaths pipeline library_paths
  let full_cmd :=
    match executable with
    | some e => if e ≠ "" then [e] else []
    | none => []
  let full_cmd := full_cmd ++ selfFlags
  let full_cmd := full_cmd ++ optListFlags custom_flags
  let full_cmd := full_cmd ++ cmd
  ⟨run_dir, full_cmd, pipeline.execute⟩

/-! ## MpirunLauncher (`ifsbench/launch/mpirunlauncher.py`) -/

/-- Table `MpirunLauncher._bind_options_map`. -/
def bindOptionsMap (b : CpuBinding) : List String :=
  match b with
  | CpuBinding.BIND_NONE => ["--bind-to", "none"]
  | CpuBinding.BIND_SOCKETS => ["--bind-to", "socket"]
  | CpuBinding.BIND_CORES => ["--bind-to", "core"]
  | CpuBinding.BIND_THREADS => ["--bind-to", "hwthread"]
  | CpuBinding.BIND_USER => []

/-- Whether `job.distribute_local` is set to something outside the
`do_nothing` list `[DISTRIBUTE_DEFAULT, DISTRIBUTE_USER, None]`
(`MpirunLauncher._get_distribution_options`). -/
def distLocalActive (job : Job) : Bool :=
  match job.distribute_local with
  | some CpuDistribution.DISTRIBUTE_BLOCK => true
  | some CpuDistribution.DISTRIBUTE_CYCLIC => true
  | _ => false

/-- Function `MpirunLauncher._get_distribution_options`: the `--map-by` options built
from `distribute_local` and `cpus_per_task` (the `distribute_remote` check
only emits a log warning and is dropped here). -/
def getDistributionOptions (job : Job) : List String :=
  if ¬ distLocalActive job ∧ job.cpus_per_task = none then
    []
  else
    let map_by :=
      if distLocalActive job then
        match job.distribute_local with
        | some CpuDistribution.DISTRIBUTE_CYCLIC => "numa"
        | _ => "core"
      else "core"
    match job.cpus_per_task with
    | some n => if n ≠ 0 then ["--map-by", map_by ++ ":PE=" ++ toString n]
                else ["--map-by", map_by]
    | none => ["--map-by", map_by]

/-- Python `option.format(value).split(" ")` for one `_job_options_map` entry:
format the option template with the job value, then split on spaces so that
`'-n 4'` becomes the token pair `['-n', '4']`. -/
def formatJobOption (template : String) (value : Nat) : List String :=
  (pySplitChar ' ' (pyFormat value template.data)).map (fun cs => String.mk cs)

/-- The flags contributed by `_job_options_map` for one job attribute
(`None` values contribute no flags). -/
def jobOptionFlags (template : String) (value : Option Nat) : List String :=
  match value with
  | some v => formatJobOption template v
  | none => []

/-- Function `MpirunLauncher.prepare`: builds
`['mpirun'] + self.flags + job_flags + bind_flags + map_by_flags +
custom_flags + cmd`, registers library paths, registers an APPEND handler
setting `OMP_NUM_THREADS` when `cpus_per_task` is truthy, and executes the
pipeline. -/
def mpirunPrepare (selfFlags : List String) (run_dir : String) (job : Job)
    (cmd : List String) (library_paths : Option (List String))
    (env_pipeline : Option EnvPipeline) (custom_flags : Option (List String)) :
    LaunchData :=
  let executable := "mpirun"
  let pipeline := env_pipeline.getD DefaultEnvPipeline
  let flags := selfFlags
  let flags := flags ++ jobOptionFlags "-n {}" job.tasks
  let flags := flags ++ jobOptionFlags "--npernode {}" job.tasks_per_node
  let flags := flags ++ jobOptionFlags "--npersocket {}" job.tasks_per_socket
  let flags := flags ++ (match job.bind with
    | some b => bindOptionsMap b
    | none => [])
  let flags := flags ++ getDistributionOptions job
  let flags := flags ++ optListFlags custom_flags
  let pipeline := addLibraryPaths pipeline library_paths
  let pipeline :=
    match job.cpus_per_task with
    | some n =>
      if n ≠ 0 then
        pipeline.add ⟨EnvOperation.APPEND, some "OMP_NUM_THREADS", some (toString n)⟩
      else pipeline
    | none => pipeline
  let flags := flags ++ cmd
  ⟨run_dir, executable :: flags, pipeline.execute⟩

/-! ## BashLauncher (`ifsbench/launch/bashlauncher.py`) -/

/-- The regex check `re.compile(r'[a-zA-Z_][a-zA-Z_0-9]*').fullmatch(key)`
from `BashLauncher._write_bash_file`, as a decidable predicate on the
character list of the key. -/
def isIdentStart (c : Char) : Bool :=
  ('a' ≤ c ∧ c ≤ 'z') ∨ ('A' ≤ c ∧ c ≤ 'Z') ∨ c = '_'

/-- Continuation characters of the shell-identifier regex. -/
def isIdentChar (c : Char) : Bool :=
  isIdentStart c ∨ ('0' ≤ c ∧ c ≤ '9')

/-- Full-match of `[a-zA-Z_][a-zA-Z_0-9]*` against an environment variable
name. -/
def validEnvName (s : String) : Bool :=
  match s.data with
  | [] => false
  | c :: cs => isIdentStart c ∧ cs.all isIdentChar

/-- The escaping applied by `BashLauncher._write_bash_file` to an
environment value before embedding it in a double-quoted export line:
`value.replace('$', '\\$').replace('"', '\\"').replace('`', '\\`')`,
in that order. -/
def escapeValue (v : List Char) : List Char :=
  pyReplaceChar '`' ['\\', '`']
    (pyReplaceChar '"' ['\\', '"']
      (pyReplaceChar '$' ['\\', '$'] v))

/-- The per-character reading of the escaping rule: backslash-escape each
`$`, `"` and backtick, leave every other character alone.  This definition
follows the spec sentence, to be compared with `escapeValue` (translated
from the source). -/
def escapeCharwise : List Char → List Char
  | [] => []
  | c :: cs =>
    (if c = '$' ∨ c = '"' ∨ c = '`' then ['\\', c] else [c]) ++ escapeCharwise cs

/-- Function `BashLauncher._write_header`: a comment banner around a header line. -/
def writeHeader (header : String) : String :=
  "\n" ++ String.mk (List.replicate 60 '#') ++ "\n" ++ "# " ++ header ++ "\n"
    ++ String.mk (List.replicate 60 '#') ++ "\n" ++ "\n"

/-- The export block written by `BashLauncher._write_bash_file`: one
`export KEY="escaped_value"` line per environment entry whose key passes the
shell-identifier check; entries with invalid keys are skipped (the source
logs a diagnostic and continues). -/
def exportBlock : List (String × String) → String
  | [] => ""
  | (k, v) :: rest =>
    (if validEnvName k then
      "export " ++ k ++ "=\"" ++ String.mk (escapeValue v.data) ++ "\"\n"
    else "") ++ exportBlock rest

/-- The quoted argv written at the end of the bash script
(`for c in launch_data.cmd: f.write(f'"{c}" ')`). -/
def cmdBlock : List String → String
  | [] => ""
  | c :: rest => "\"" ++ c ++ "\" " ++ cmdBlock rest

/-- Function `BashLauncher._write_bash_file`: the full text of the generated script
(shebang, environment header, export lines, launch header, `cd` line,
quoted argv). -/
def writeBashFile (launch_data : LaunchData) : String :=
  "#! /bin/bash\n\n"
    ++ writeHeader "Specify environment"
    ++ exportBlock launch_data.env
    ++ writeHeader "Specify launch command"
    ++ "cd \"" ++ launch_data.run_dir ++ "\"" ++ "\n"
    ++ cmdBlock launch_data.cmd

/-- The script path chosen by `BashLauncher.wrap`:
`run_dir / "bash_scripts" / f"{cmd_str}_{time_str}.sh"` with
`cmd_str = cmd[0].split('/')[-1]`. -/
def bashScriptPath (run_dir : String) (cmd0 : String) (time_str : String) :
    String :=
  run_dir ++ "/bash_scripts" ++ "/" ++ cmdBasename cmd0 ++ "_" ++ time_str ++ ".sh"

/-- Function `BashLauncher.wrap`: deep-copies the incoming launch data, writes the
bash script (a pure value here; the path is derived from `cmd[0]` and the
formatted UTC timestamp, passed in as `time_str`), and returns a fresh
`LaunchData` with `cmd = ['/bin/bash', script_path]` and default (empty)
environment.  Indexing `cmd[0]` raises on an empty `cmd`, hence the
`Option` result. -/
def bashWrap (launch_data : LaunchData) (run_dir : String) (cmd : List String)
    (time_str : String) : Option LaunchData :=
  match cmd with
  | [] => none
  | cmd0 :: _ =>
    let _script_text := writeBashFile launch_data
    some ⟨run_dir, ["/bin/bash", bashScriptPath run_dir cmd0 time_str], []⟩

/-! ## DDT wrapper

Modelled from the spec: the current `DDTLauncher` is a `LauncherWrapper`
(spec §4.3; exercised by `launch/tests/test_ddtlauncher.py` and
`launch/tests/test_launcher.py` via `DDTLauncher().wrap(...)`), but the
copy of `ifsbench/launch/ddtlauncher.py` under `src/` is an older
`Launcher`-based revision without a `wrap` method.  Per the spec, `wrap`
"prepends `['ddt'] + flags + ['--']` to `launch_data.cmd`; leaves env and
run_dir untouched" and returns a new `LaunchData` without mutating its
input. -/
def ddtWrap (flags : List String) (launch_data : LaunchData) : LaunchData :=
  { launch_data with cmd := ["ddt"] ++ flags ++ ["--"] ++ launch_data.cmd }

/-! ## The launcher / wrapper hierarchy -/

/-- The `LauncherWrapper` subclasses registered in the embedded hierarchy:
the DDT wrapper (modelled from the spec) and `BashLauncher`.  Both carry
the inherited `flags` field (`launcher.py`, `LauncherWrapper.flags`);
`BashLauncher` does not use its flags. -/
inductive Wrapper where
  | ddt (flags : List String)
  | bash (flags : List String)
deriving DecidableEq, Repr

/-- Dispatch of `LauncherWrapper.wrap`. -/
def Wrapper.wrap (w : Wrapper) (launch_data : LaunchData) (run_dir : String)
    (cmd : List String) (_library_paths : Option (List String))
    (_env_pipeline : Option EnvPipeline) (time_str : String) :
    Option LaunchData :=
  match w with
  | Wrapper.ddt flags => some (ddtWrap flags launch_data)
  | Wrapper.bash _ => bashWrap launch_data run_dir cmd time_str

/-- The `Launcher` subclasses registered in the embedded hierarchy:
`DirectLauncher` (`flags`, optional `executable`), `MpirunLauncher`
(`flags`) and `CompositeLauncher` (`flags`, `base_launcher`, `wrappers`). -/
inductive Launcher where
  | direct (flags : List String) (executable : Option String)
  | mpirun (flags : List String)
  | composite (flags : List String) (base_launcher : Launcher)
      (wrappers : List Wrapper)
deriving DecidableEq, Repr

/-- Dispatch of `Launcher.prepare`.  `CompositeLauncher.prepare` (from
`launcher.py`) calls `base_launcher.prepare(run_dir, job, cmd,
library_paths, env_pipeline, self.flags)` and then loops
`launch_data = wrapper.wrap(launch_data, run_dir, cmd, library_paths,
env_pipeline)` over `self.wrappers`; the loop is the `foldl` below, with
`Option.bind` propagating a raised exception.  The `custom_flags`
parameter of the composite is accepted but never read, as in the source.
The wall-clock timestamp consumed by `BashLauncher.wrap` is threaded as
the explicit `time_str` argument. -/
def Launcher.prepare (l : Launcher) (run_dir : String) (job : Job)
    (cmd : List String) (library_paths : Option (List String))
    (env_pipeline : Option EnvPipeline) (custom_flags : Option (List String))
    (time_str : String) : Option LaunchData :=
  match l with
  | Launcher.direct flags executable =>
    some (directPrepare flags executable run_dir job cmd library_paths
      env_pipeline custom_flags)
  | Launcher.mpirun flags =>
    some (mpirunPrepare flags run_dir job cmd library_paths env_pipeline
      custom_flags)
  | Launcher.composite flags base_launcher wrappers =>
    wrappers.foldl
      (fun acc w =>
        acc.bind (fun ld => w.wrap ld run_dir cmd library_paths env_pipeline
          time_str))
      (Launcher.prepare base_launcher run_dir job cmd library_paths
        env_pipeline (some flags) time_str)

/-- The spec's reading of wrapper composition: thread the base result
through `w1.wrap, ..., wn.wrap` in list order.  Defined by explicit
recursion, to be compared with the loop in `Launcher.prepare`. -/
def threadWrappers (ws : List Wrapper) (acc : Option LaunchData)
    (run_dir : String) (cmd : List String)
    (library_paths : Option (List String))
    (env_pipeline : Option EnvPipeline) (time_str : String) :
    Option LaunchData :=
  match ws with
  | [] => acc
  | w :: rest =>
    threadWrappers rest
      (acc.bind (fun ld => w.wrap ld run_dir cmd library_paths env_pipeline
        time_str))
      run_dir cmd library_paths env_pipeline time_str

/-! ## Object store semantics for wrapper copy-on-write

Python passes `LaunchData` objects by reference, so the frame property
"`wrap` does not mutate its input" is only visible against an explicit
object store.  We model the store as a list of `LaunchData` values indexed
by allocation order; `deepcopy` and the `LaunchData(...)` constructor both
allocate fresh cells at the end of the store. -/

/-- The object store for `LaunchData` objects. -/
abbrev Store := List LaunchData

/-- Allocate a fresh object holding `v`; returns the new store and the
reference (index) of the allocation. -/
def allocate (h : Store) (v : LaunchData) : Store × Nat :=
  (h ++ [v], h.length)

/-- Read an object from the store (default value on a dangling reference;
the theorems only use in-bounds references). -/
def readRef (h : Store) (r : Nat) : LaunchData :=
  h.getD r default

/-- Function `BashLauncher.wrap` against the object store:
`launch_data = deepcopy(launch_data)` allocates a copy of the input object,
the script is written from the copy, and the returned `LaunchData(...)`
constructor call allocates a fresh result object.  The input cell is never
written. -/
def bashWrapStore (h : Store) (r : Nat) (run_dir : String) (cmd : List String)
    (time_str : String) : Option (Store × Nat) :=
  let v := readRef h r
  let copied := allocate h v
  match cmd with
  | [] => none
  | cmd0 :: _ =>
    let _script_text := writeBashFile (readRef copied.1 copied.2)
    some (allocate copied.1
      ⟨run_dir, ["/bin/bash", bashScriptPath run_dir cmd0 time_str], []⟩)

/-- Modelled from the spec: the DDT wrapper's `wrap` against the object
store.  Per spec §4.3 it "must return a new one; must not mutate the input
in place": the result is a freshly allocated `LaunchData` with the
`['ddt'] + flags + ['--']` prefix, the input cell is never written. -/
def ddtWrapStore (h : Store) (r : Nat) (flags : List String) : Store × Nat :=
  allocate h (ddtWrap flags (readRef h r))

/-- Dispatch of `Wrapper.wrap` against the object store. -/
def Wrapper.wrapStore (w : Wrapper) (h : Store) (r : Nat) (run_dir : String)
    (cmd : List String) (time_str : String) : Option (Store × Nat) :=
  match w with
  | Wrapper.ddt flags => some (ddtWrapStore h r flags)
  | Wrapper.bash _ => bashWrapStore h r run_dir cmd time_str

/-! ## Serialisation mixin (`ifsbench/serialisation_mixin.py`)

The pydantic-backed mixin is embedded by its effective behaviour on the
registered launcher/wrapper hierarchy:

* `dump_config` serialises all declared fields via `model_dump(
  exclude_none=True, round_trip=True)` — `None`-valued fields are omitted —
  and the `class_name` discriminator field (installed on every subclass by
  `__pydantic_init_subclass__`) is kept when `with_class=True` and popped
  from the top-level mapping otherwise; nested subclass objects always
  carry their discriminator (`_serialize_model` dispatches to the actual
  object's dump).
* `from_config` on the polymorphic base validates via the
  `_discriminating_type_adapter`: `_parse_into_subclass` reads the
  `class_name` field and dispatches construction to the registered
  subclass; missing or unknown discriminators and ill-typed fields fail
  validation (`none` here).  Extra keys are ignored and fields absent from
  the mapping take their declared defaults, as in pydantic. -/

/-- The plain configuration values produced by `dump_config`
(string / list / mapping suffice for the launcher hierarchy's fields). -/
inductive ConfigValue where
  | str (s : String)
  | list (xs : List ConfigValue)
  | dict (fields : List (String × ConfigValue))

/-- The reserved discriminator key (`CLASSNAME = 'class_name'` in
`serialisation_mixin.py`). -/
def CLASSNAME : String := "class_name"

/-- Key-based lookup in a configuration mapping. -/
def lookupField (fields : List (String × ConfigValue)) (k : String) :
    Option ConfigValue :=
  match fields with
  | [] => none
  | (k', v) :: rest => if k' = k then some v else lookupField rest k

/-- Serialise a `List[str]` field. -/
def dumpStrList (l : List String) : ConfigValue :=
  ConfigValue.list (l.map ConfigValue.str)

/-- Parse a `str` field value. -/
def parseStr (v : ConfigValue) : Option String :=
  match v with
  | ConfigValue.str s => some s
  | _ => none

/-- Elementwise parse of a list of `str` values. -/
def parseStrs : List ConfigValue → Option (List String)
  | [] => some []
  | v :: rest =>
    match parseStr v, parseStrs rest with
    | some s, some ss => some (s :: ss)
    | _, _ => none

/-- Parse a `List[str]` field value. -/
def parseStrList (v : ConfigValue) : Option (List String) :=
  match v with
  | ConfigValue.list xs => parseStrs xs
  | _ => none

/-- Parse the `flags` field: absent keys take the declared default `[]`. -/
def parseFlags (fields : List (String × ConfigValue)) : Option (List String) :=
  match lookupField fields "flags" with
  | none => some []
  | some v => parseStrList v

/-- Parse the `Optional[str]` field `executable`: absent keys take the
declared default `None`. -/
def parseExecutable (fields : List (String × ConfigValue)) :
    Option (Option String) :=
  match lookupField fields "executable" with
  | none => some none
  | some (ConfigValue.str s) => some (some s)
  | some _ => none

/-- Field mapping of one wrapper, discriminator included (pydantic field
order: the inherited `flags`, then the `class_name` field installed by
`__pydantic_init_subclass__`). -/
def Wrapper.dumpFields (w : Wrapper) : List (String × ConfigValue) :=
  match w with
  | Wrapper.ddt flags =>
    [("flags", dumpStrList flags), (CLASSNAME, ConfigValue.str "DDTLauncher")]
  | Wrapper.bash flags =>
    [("flags", dumpStrList flags), (CLASSNAME, ConfigValue.str "BashLauncher")]

/-- Method `dump_config` for a wrapper: the discriminator is kept when
`with_class` is true and popped from the top-level mapping otherwise. -/
def Wrapper.dump_config (w : Wrapper) (with_class : Bool) : ConfigValue :=
  if with_class then ConfigValue.dict w.dumpFields
  else ConfigValue.dict (w.dumpFields.filter (fun kv => kv.1 ≠ CLASSNAME))

/-- Method `from_config` on the `LauncherWrapper` base: dispatch on the
discriminator, validate the fields of the matching registered subclass. -/
def Wrapper.from_config (v : ConfigValue) : Option Wrapper :=
  match v with
  | ConfigValue.dict fields =>
    match lookupField fields CLASSNAME with
    | some (ConfigValue.str name) =>
      if name = "DDTLauncher" then
        (parseFlags fields).map Wrapper.ddt
      else if name = "BashLauncher" then
        (parseFlags fields).map Wrapper.bash
      else none
    | _ => none
  | _ => none

/-- Elementwise parse of the `wrappers: List[LauncherWrapper]` field. -/
def parseWrapperList : List ConfigValue → Option (List Wrapper)
  | [] => some []
  | v :: rest =>
    match Wrapper.from_config v, parseWrapperList rest with
    | some w, some ws => some (w :: ws)
    | _, _ => none

/-- Field mapping of one launcher, discriminator included (pydantic field
order: inherited `flags`, the `class_name` slot, then the subclass's own
fields; `exclude_none=True` omits an unset `executable`). -/
def Launcher.dumpFields (l : Launcher) : List (String × ConfigValue) :=
  match l with
  | Launcher.direct flags executable =>
    [("flags", dumpStrList flags), (CLASSNAME, ConfigValue.str "DirectLauncher")]
      ++ (match executable with
        | some e => [("executable", ConfigValue.str e)]
        | none => [])
  | Launcher.mpirun flags =>
    [("flags", dumpStrList flags), (CLASSNAME, ConfigValue.str "MpirunLauncher")]
  | Launcher.composite flags base_launcher wrappers =>
    [("flags", dumpStrList flags),
     (CLASSNAME, ConfigValue.str "CompositeLauncher"),
     ("base_launcher", ConfigValue.dict base_launcher.dumpFields),
     ("wrappers",
       ConfigValue.list (wrappers.map (fun w => ConfigValue.dict w.dumpFields)))]

/-- Method `dump_config` for a launcher: the discriminator is kept when
`with_class` is true and popped from the top-level mapping otherwise
(nested objects keep theirs either way, per `_serialize_model`). -/
def Launcher.dump_config (l : Launcher) (with_class : Bool) : ConfigValue :=
  if with_class then ConfigValue.dict l.dumpFields
  else ConfigValue.dict (l.dumpFields.filter (fun kv => kv.1 ≠ CLASSNAME))

/-- Lemma: `lookupField` only returns (strict) subterms of the mapping. -/
theorem lookupField_sizeOf (fields : List (String × ConfigValue)) (k : String)
    (v : ConfigValue) (h : lookupField fields k = some v) :
    sizeOf v < sizeOf fields := by
  induction fields with
  | nil => simp [lookupField] at h
  | cons kv rest ih =>
    rw [lookupField] at h
    by_cases hk : kv.1 = k
    · simp only [hk, if_pos rfl] at h
      cases h
      cases kv
      simp
      omega
    · simp only [if_neg hk] at h
      have := ih h
      simp
      omega

/-- Method `from_config` on the `Launcher` base: dispatch on the discriminator,
validate the fields of the matching registered subclass; the
`base_launcher` field of a composite is parsed recursively. -/
def Launcher.from_config (v : ConfigValue) : Option Launcher :=
  match v with
  | ConfigValue.dict fields =>
    match lookupField fields CLASSNAME with
    | some (ConfigValue.str name) =>
      if name = "DirectLauncher" then
        match parseFlags fields, parseExecutable fields with
        | some f, some e => some (Launcher.direct f e)
        | _, _ => none
      else if name = "MpirunLauncher" then
        (parseFlags fields).map Launcher.mpirun
      else if name = "CompositeLauncher" then
        match parseFlags fields with
        | none => none
        | some f =>
          match hb : lookupField fields "base_launcher" with
          | none => none
          | some bv =>
            match Launcher.from_config bv with
            | none => none
            | some base =>
              match lookupField fields "wrappers" with
              | some (ConfigValue.list xs) =>
                (parseWrapperList xs).map (Launcher.composite f base)
              | _ => none
      else none
    | _ => none
  | _ => none
termination_by sizeOf v
decreasing_by
  have := lookupField_sizeOf fields "base_launcher" bv hb
  simp
  omega

/-! ## Subclass registration (`SubclassableSerialisationMixin.__pydantic_init_subclass__`)

When a subclass is defined, `__pydantic_init_subclass__` assigns
`cls.model_fields[CLASSNAME] = FieldInfo(annotation=Literal[cls.__name__],
default=cls.__name__)` and rebuilds the model: an existing entry under the
key (a user-declared `class_name` field) is silently replaced at its
position, a missing entry is appended.  No check against `RESERVED_NAMES`
is performed anywhere in the source, and no error path exists. -/

/-- The declared annotation of a model field, reduced to the cases the
claims need: an ordinary `str` field, or the `Literal[cls.__name__]`
discriminator installed by `__pydantic_init_subclass__`. -/
inductive FieldAnn where
  | str
  | lit (name : String)
deriving DecidableEq, Repr

/-- Python `dict` assignment on the `model_fields` mapping: replace in
place if the key exists, append otherwise. -/
def setModelField (fields : List (String × FieldAnn)) (k : String)
    (a : FieldAnn) : List (String × FieldAnn) :=
  match fields with
  | [] => [(k, a)]
  | (k', a') :: rest =>
    if k' = k then (k, a) :: rest else (k', a') :: setModelField rest k a

/-- Hook `__pydantic_init_subclass__` restricted to its effect on
`model_fields`: install the `Literal[cls.__name__]` discriminator under the
reserved key.  The function is total — subclass definition never raises,
whatever fields were declared. -/
def initSubclass (clsName : String) (fields : List (String × FieldAnn)) :
    List (String × FieldAnn) :=
  setModelField fields CLASSNAME (FieldAnn.lit clsName)

/-- Key lookup on `model_fields`. -/
def lookupModelField (fields : List (String × FieldAnn)) (k : String) :
    Option FieldAnn :=
  match fields with
  | [] => none
  | (k', a) :: rest => if k' = k then some a else lookupModelField rest k

/-- pydantic validation of one value against a declared field annotation:
a `str` field accepts any string, `Literal[name]` accepts exactly `name`. -/
def validateFieldValue (a : FieldAnn) (v : String) : Bool :=
  match a with
  | FieldAnn.str => true
  | FieldAnn.lit name => v = name

/-- Whether an argv contains the flag tokens `x` followed immediately by
`y` (the `'-n', '4'` token-pair shape of an mpirun flag). -/
def hasTokenPair (cmd : List String) (x y : String) : Bool :=
  match cmd with
  | a :: b :: rest =>
    if a = x ∧ b = y then true else hasTokenPair (b :: rest) x y
  | _ => false

/-! ## Helper lemmas -/

/-- The wrapper loop of `CompositeLauncher.prepare`, written as `foldl`,
agrees with explicit sequential threading. -/
theorem wrapLoop_eq_threadWrappers (ws : List Wrapper) (acc : Option LaunchData)
    (run_dir : String) (cmd : List String)
    (library_paths : Option (List String)) (env_pipeline : Option EnvPipeline)
    (time_str : String) :
    ws.foldl
      (fun acc w =>
        acc.bind (fun ld => w.wrap ld run_dir cmd library_paths env_pipeline
          time_str))
      acc
      = threadWrappers ws acc run_dir cmd library_paths env_pipeline time_str := by
  induction ws generalizing acc with
  | nil => rfl
  | cons w rest ih => simp only [List.foldl, threadWrappers, ih]

/-- Lemma: `pyReplaceChar` distributes over list append. -/
theorem pyReplaceChar_append (old : Char) (new xs ys : List Char) :
    pyReplaceChar old new (xs ++ ys)
      = pyReplaceChar old new xs ++ pyReplaceChar old new ys := by
  induction xs with
  | nil => rfl
  | cons c cs ih =>
    by_cases h : c = old <;> simp [pyReplaceChar, h, ih]

/-- Lemma: `exportBlock` drops an entry whose key fails the identifier check and
leaves all other entries untouched. -/
theorem exportBlock_skip (pre : List (String × String)) (k v : String)
    (post : List (String × String)) (h : validEnvName k = false) :
    exportBlock (pre ++ (k, v) :: post) = exportBlock (pre ++ post) := by
  induction pre with
  | nil =>
    show exportBlock ((k, v) :: post) = exportBlock post
    simp [exportBlock, h]
  | cons kv rest ih =>
    simp [exportBlock, ih]

/-- Looking a key up right after a `dict` assignment returns the assigned
annotation. -/
theorem lookupModelField_setModelField (fields : List (String × FieldAnn))
    (k : String) (a : FieldAnn) :
    lookupModelField (setModelField fields k a) k = some a := by
  induction fields with
  | nil => simp [setModelField, lookupModelField]
  | cons kv rest ih =>
    by_cases h : kv.1 = k
    · simp [setModelField, lookupModelField, h]
    · simp [setModelField, lookupModelField, h, ih]

/-- Round trip for string-list fields. -/
theorem parseStrs_roundtrip (l : List String) :
    parseStrs (l.map ConfigValue.str) = some l := by
  induction l with
  | nil => rfl
  | cons s rest ih => simp [parseStrs, parseStr, ih]

/-- Round trip for the `flags` field of every embedded class. -/
theorem parseFlags_dump (flags : List String)
    (rest : List (String × ConfigValue)) :
    parseFlags (("flags", dumpStrList flags) :: rest) = some flags := by
  simp [parseFlags, lookupField, parseStrList, dumpStrList, parseStrs_roundtrip]

/-- Round trip for one wrapper through its dumped field mapping. -/
theorem wrapper_from_dumpFields (w : Wrapper) :
    Wrapper.from_config (ConfigValue.dict w.dumpFields) = some w := by
  cases w with
  | ddt flags =>
    simp [Wrapper.dumpFields, Wrapper.from_config, lookupField, CLASSNAME,
      parseFlags_dump]
  | bash flags =>
    simp [Wrapper.dumpFields, Wrapper.from_config, lookupField, CLASSNAME,
      parseFlags_dump]

/-- Round trip for a wrapper list through its dumped representation. -/
theorem parseWrapperList_dump (ws : List Wrapper) :
    parseWrapperList (ws.map (fun w => ConfigValue.dict w.dumpFields))
      = some ws := by
  induction ws with
  | nil => rfl
  | cons w rest ih => simp [parseWrapperList, wrapper_from_dumpFields, ih]

/-- Round trip for one launcher through its dumped field mapping. -/
theorem launcher_from_dumpFields (l : Launcher) :
    Launcher.from_config (ConfigValue.dict l.dumpFields) = some l := by
  induction l with
  | direct flags executable =>
    cases executable with
    | none =>
      simp [Launcher.dumpFields, Launcher.from_config, lookupField, CLASSNAME,
        parseFlags_dump, parseExecutable]
    | some e =>
      simp [Launcher.dumpFields, Launcher.from_config, lookupField, CLASSNAME,
        parseFlags_dump, parseExecutable]
  | mpirun flags =>
    simp [Launcher.dumpFields, Launcher.from_config, lookupField, CLASSNAME,
      parseFlags_dump]
  | composite flags base wrappers ih =>
    rw [Launcher.from_config]
    simp [Launcher.dumpFields, lookupField, CLASSNAME, parseFlags_dump, ih,
      parseWrapperList_dump]

/-! ## Claim theorems -/

/-- C1.  Serialisation round trip: for every instance of a registered
launcher or wrapper type in the embedded hierarchy,
`from_config (dump_config (with_class := true))` reconstructs an equal
instance. -/
theorem claim_serialisation_roundtrip :
    (∀ l : Launcher, Launcher.from_config (l.dump_config true) = some l) ∧
    (∀ w : Wrapper, Wrapper.from_config (w.dump_config true) = some w) := by
  constructor
  · intro l
    simpa [Launcher.dump_config] using launcher_from_dumpFields l
  · intro w
    simpa [Wrapper.dump_config] using wrapper_from_dumpFields w

/-- C2.  Composition equivalence: with the wall-clock timestamp held fixed,
`CompositeLauncher.prepare` returns the same `LaunchData` as calling the
base launcher's `prepare` with the composite's own `flags` as
`custom_flags` and then threading the result through `w1.wrap, ..., wn.wrap`
in list order. -/
theorem claim_composite_prepare_equals_chained_wraps
    (flags : List String) (base : Launcher) (ws : List Wrapper)
    (run_dir : String) (job : Job) (cmd : List String)
    (library_paths : Option (List String)) (env_pipeline : Option EnvPipeline)
    (custom_flags : Option (List String)) (time_str : String) :
    Launcher.prepare (Launcher.composite flags base ws) run_dir job cmd
        library_paths env_pipeline custom_flags time_str
      = threadWrappers ws
          (Launcher.prepare base run_dir job cmd library_paths env_pipeline
            (some flags) time_str)
          run_dir cmd library_paths env_pipeline time_str := by
  rw [Launcher.prepare]
  exact wrapLoop_eq_threadWrappers ws _ run_dir cmd library_paths env_pipeline
    time_str

/-- C3.  DDT command formation: the DDT wrapper always prepends
`['ddt'] + flags + ['--']` to the base launch command; in particular, with
an empty `flags` field the result is `['ddt', '--'] + base_cmd`, and with
`flags = ['--ddt-option=5']` it is `['ddt', '--ddt-option=5', '--'] +
base_cmd`. -/
theorem claim_ddt_cmd_formation (flags : List String) (ld : LaunchData) :
    (ddtWrap flags ld).cmd = ["ddt"] ++ flags ++ ["--"] ++ ld.cmd ∧
    (ddtWrap [] ld).cmd = ["ddt", "--"] ++ ld.cmd ∧
    (ddtWrap ["--ddt-option=5"] ld).cmd
      = ["ddt", "--ddt-option=5", "--"] ++ ld.cmd :=
  ⟨rfl, rfl, rfl⟩

/-- C4.  BashLauncher result shape: for every input `LaunchData`, `run_dir`
and non-empty `cmd`, the bash wrapping stage returns a `LaunchData` whose
`cmd` is exactly `['/bin/bash', script_path]` with `script_path` under
`run_dir/bash_scripts` named `<basename of cmd[0]>_<timestamp>.sh`, and
whose environment mapping is empty. -/
theorem claim_bash_wrap_result_shape (ld : LaunchData) (run_dir : String)
    (cmd : List String) (time_str : String) (h : cmd ≠ []) :
    bashWrap ld run_dir cmd time_str
      = some ⟨run_dir,
          ["/bin/bash",
           run_dir ++ "/bash_scripts" ++ "/" ++ cmdBasename (cmd.headD "")
             ++ "_" ++ time_str ++ ".sh"],
          []⟩ := by
  cases cmd with
  | nil => exact absurd rfl h
  | cons c rest => rfl

/-- C4 witness: concrete evaluation of the bash wrapping stage. -/
theorem claim_bash_wrap_result_shape_witness :
    bashWrap ⟨"/old", ["a"], [("K", "V")]⟩ "/run" ["sub/dir/prog", "-x"]
        "2026-02-09:15-57-10-000000"
      = some ⟨"/run",
          ["/bin/bash", "/run/bash_scripts/prog_2026-02-09:15-57-10-000000.sh"],
          []⟩ :=
  claim_bash_wrap_result_shape ⟨"/old", ["a"], [("K", "V")]⟩ "/run"
    ["sub/dir/prog", "-x"] "2026-02-09:15-57-10-000000" (by decide)

/-- C5.  Wrapper copy-on-write: against the explicit object store, every
wrapper stage (DDT, Bash) that returns a result leaves the cell holding the
input `LaunchData` (its `run_dir`, `cmd` and `env`) unchanged and returns a
reference distinct from the input reference. -/
theorem claim_wrapper_copy_on_write (w : Wrapper) (h : Store) (r : Nat)
    (run_dir : String) (cmd : List String) (time_str : String)
    (h' : Store) (r' : Nat) (hr : r < h.length)
    (heq : Wrapper.wrapStore w h r run_dir cmd time_str = some (h', r')) :
    h'.get? r = h.get? r ∧ r ≠ r' := by
  cases w with
  | ddt flags =>
    simp only [Wrapper.wrapStore, ddtWrapStore, allocate, Option.some.injEq,
      Prod.mk.injEq] at heq
    obtain ⟨hh, hrr⟩ := heq
    subst hh hrr
    exact ⟨List.get?_append hr, Nat.ne_of_lt hr⟩
  | bash flags =>
    cases cmd with
    | nil => simp [Wrapper.wrapStore, bashWrapStore] at heq
    | cons c rest =>
      simp only [Wrapper.wrapStore, bashWrapStore, allocate, readRef,
        Option.some.injEq, Prod.mk.injEq] at heq
      obtain ⟨hh, hrr⟩ := heq
      subst hh hrr
      constructor
      · rw [List.get?_append, List.get?_append hr]
        simp
        omega
      · simp
        omega

/-- C5 witness: a concrete DDT wrap against a one-cell store. -/
theorem claim_wrapper_copy_on_write_witness :
    ((0 : Nat) < ([⟨"/a", ["x"], []⟩] : Store).length ∧
      Wrapper.wrapStore (Wrapper.ddt ["-f"]) [⟨"/a", ["x"], []⟩] 0 "/r" ["p"]
          "T"
        = some ([⟨"/a", ["x"], []⟩, ⟨"/a", ["ddt", "-f", "--", "x"], []⟩], 1)) ∧
    ([(⟨"/a", ["x"], []⟩ : LaunchData),
      ⟨"/a", ["ddt", "-f", "--", "x"], []⟩].get? 0
        = ([⟨"/a", ["x"], []⟩] : Store).get? 0 ∧
      (0 : Nat) ≠ 1) :=
  ⟨⟨by decide, rfl⟩,
    claim_wrapper_copy_on_write (Wrapper.ddt ["-f"]) [⟨"/a", ["x"], []⟩] 0 "/r"
      ["p"] "T" _ _ (by decide) rfl⟩

/-- C6.  MpirunLauncher job translation:
`MpirunLauncher().prepare(run_dir, Job(tasks=4, cpus_per_task=2),
cmd=['prog'])` yields an argv containing the token pair `'-n', '4'` and the
token pair `'--map-by', 'core:PE=2'`, and an environment mapping
`OMP_NUM_THREADS` to `'2'`. -/
theorem claim_mpirun_job_translation (run_dir : String) :
    hasTokenPair
        (mpirunPrepare [] run_dir { tasks := some 4, cpus_per_task := some 2 }
          ["prog"] none none none).cmd "-n" "4" = true ∧
    hasTokenPair
        (mpirunPrepare [] run_dir { tasks := some 4, cpus_per_task := some 2 }
          ["prog"] none none none).cmd "--map-by" "core:PE=2" = true ∧
    envLookup
        (mpirunPrepare [] run_dir { tasks := some 4, cpus_per_task := some 2 }
          ["prog"] none none none).env "OMP_NUM_THREADS" = some "2" :=
  ⟨rfl, rfl, rfl⟩

/-- C7.  Bash value escaping: the escaping applied by
`BashLauncher._write_bash_file` — `$` replaced first, then `"`, then
backtick — agrees with the per-character rule that backslash-escapes
exactly these three characters and alters nothing else. -/
theorem claim_bash_escape_charwise (v : List Char) :
    escapeValue v = escapeCharwise v := by
  induction v with
  | nil => rfl
  | cons c cs ih =>
    by_cases h1 : c = '$'
    · subst h1
      simp [escapeValue, escapeCharwise, pyReplaceChar, pyReplaceChar_append,
        ← ih]
    · by_cases h2 : c = '"'
      · subst h2
        simp [escapeValue, escapeCharwise, pyReplaceChar, pyReplaceChar_append,
          ← ih]
      · by_cases h3 : c = '`'
        · subst h3
          simp [escapeValue, escapeCharwise, pyReplaceChar,
            pyReplaceChar_append, ← ih]
        · simp [escapeValue, escapeCharwise, pyReplaceChar, h1, h2, h3, ← ih]

/-- C8.  Non-fatal skip of invalid environment names: script generation is
total, an entry whose key fails the `[a-zA-Z_][a-zA-Z_0-9]*` check produces
no export line, and every other entry is exported exactly as without it. -/
theorem claim_bash_invalid_env_skipped (run_dir : String) (cmd : List String)
    (pre post : List (String × String)) (k v : String)
    (h : validEnvName k = false) :
    writeBashFile ⟨run_dir, cmd, pre ++ (k, v) :: post⟩
      = writeBashFile ⟨run_dir, cmd, pre ++ post⟩ := by
  unfold writeBashFile
  rw [show (⟨run_dir, cmd, pre ++ (k, v) :: post⟩ : LaunchData).env
      = pre ++ (k, v) :: post from rfl]
  rw [exportBlock_skip pre k v post h]

/-- C8 witness: a bash-function artifact key is skipped, the valid entries
around it are still exported. -/
theorem claim_bash_invalid_env_skipped_witness :
    validEnvName "BASH_FUNC_mod%%" = false ∧
    writeBashFile ⟨"/r", ["p"],
        [("GOOD", "1"), ("BASH_FUNC_mod%%", "x"), ("ALSO_GOOD", "2")]⟩
      = writeBashFile ⟨"/r", ["p"], [("GOOD", "1"), ("ALSO_GOOD", "2")]⟩ :=
  ⟨by decide,
    claim_bash_invalid_env_skipped "/r" ["p"] [("GOOD", "1")]
      [("ALSO_GOOD", "2")] "BASH_FUNC_mod%%" "x" (by decide)⟩

/-- C9 counterexample: defining a subclass that declares an ordinary field
named `class_name` is not rejected — `__pydantic_init_subclass__` completes
and silently replaces the declared field with the `Literal` discriminator,
so no validation error is raised at class-definition time. -/
theorem claim_reserved_name_not_rejected :
    initSubclass "MyLauncher" [(CLASSNAME, FieldAnn.str), ("tasks", FieldAnn.str)]
      = [(CLASSNAME, FieldAnn.lit "MyLauncher"), ("tasks", FieldAnn.str)] :=
  rfl

/-- C9 (amended).  After subclass registration the `class_name` entry of
`model_fields` is always the `Literal[cls.__name__]` discriminator,
whatever the class declared, so the reserved name cannot act as an
ordinary configuration field. -/
theorem claim_reserved_name_overwritten (clsName : String)
    (fields : List (String × FieldAnn)) :
    lookupModelField (initSubclass clsName fields) CLASSNAME
      = some (FieldAnn.lit clsName) :=
  lookupModelField_setModelField fields CLASSNAME (FieldAnn.lit clsName)

/-- C10.  `CompositeLauncher.prepare` ignores its `custom_flags` parameter:
for all other fixed arguments the returned `LaunchData` is identical for
every value of `custom_flags`. -/
theorem claim_composite_ignores_custom_flags (flags : List String)
    (base : Launcher) (ws : List Wrapper) (run_dir : String) (job : Job)
    (cmd : List String) (library_paths : Option (List String))
    (env_pipeline : Option EnvPipeline)
    (custom_flags₁ custom_flags₂ : Option (List String)) (time_str : String) :
    Launcher.prepare (Launcher.composite flags base ws) run_dir job cmd
        library_paths env_pipeline custom_flags₁ time_str
      = Launcher.prepare (Launcher.composite flags base ws) run_dir job cmd
          library_paths env_pipeline custom_flags₂ time_str :=
  rfl

end Ifsbench
